import Mathlib

/-!
Verification of the QCoDeS Oxford Instruments MercuryiPS VISA driver
(qcodes/instrument_drivers/oxford/MercuryiPS_VISA.py).

The Python module is shallowly embedded: pure string manipulation becomes
Lean functions on String / List Char, Python floats become exact rationals
(ℚ), and fallible operations (Python exceptions: ValueError on float
parsing, IndexError on list indexing) become Option / Except values.
External collaborators that are part of the QCoDeS repository but not of
this file (the FieldVector coordinate utility, the parameter framework)
are modelled from the specification where a claim needs them.
-/

namespace MercuryIPS

/-- Embedding of Python `float(s)` restricted to strings over the
alphabet of characters the driver ever feeds it: decimal digits,
the full stop and the minus sign.  Python accepts an optional single
leading minus sign followed by a mantissa that contains at least one
digit and at most one full stop; everything else raises ValueError,
modelled as `none`.  The value is returned as an exact rational. -/
def pyFloat (s : String) : Option ℚ :=
  let cs := s.toList
  let sign : ℚ := if cs.head? = some '-' then -1 else 1
  let mant : List Char := if cs.head? = some '-' then cs.tail else cs
  if mant.all (fun c => c.isDigit || c == '.') ∧
      mant.count '.' ≤ 1 ∧ mant.any Char.isDigit then
    let intPart := mant.takeWhile (fun c => c ≠ '.')
    let fracPart := (mant.dropWhile (fun c => c ≠ '.')).drop 1
    let digitsVal : List Char → ℕ :=
      fun l => l.foldl (fun n c => 10 * n + (c.toNat - 48)) 0
    some (sign * ((digitsVal intPart : ℚ) +
      (digitsVal fracPart : ℚ) / (10 ^ fracPart.length)))
  else
    none

/-- Embedding of `_response_preparser`: remove every colon character
from the raw instrument response (Python `bare_resp.replace(':', '')`). -/
def preparseResponse (bare_resp : String) : String :=
  (bare_resp.toList.filter (fun c => c ≠ ':')).asString

/-- The character class the source calls `numchars`: the characters the
signal value scanner collects. -/
def numchars : List Char :=
  ['0', '1', '2', '3', '4', '5', '6', '7', '8', '9', '.', '-']

/-- The table the source calls `scale_to_factor`: single-character SI
scale prefixes and their factors (1e-9, 1e-6, 1e-3, 1e3, 1e6). -/
def scale_to_factor : List (Char × ℚ) :=
  [('n', 1 / 1000000000), ('u', 1 / 1000000), ('m', 1 / 1000),
   ('k', 1000), ('M', 1000000)]

/-- The numeric token of `_signal_parser`: after preparsing, the
characters of the response that lie in `numchars`, kept in order
(Python list-comprehension filter joined back into a string). -/
def numericToken (response : String) : String :=
  ((preparseResponse response).toList.filter (fun c => c ∈ numchars)).asString

/-- The scale-and-unit part of `_signal_parser`: the preparsed response
with its first `(numericToken response).length` characters removed
(Python `response[len(digits):]`). -/
def scaleAndUnit (response : String) : String :=
  ((preparseResponse response).toList.drop (numericToken response).length).asString

/-- The `their_scaling` branch of `_signal_parser`: 1 when the
scale-and-unit text is empty, otherwise the factor its first character
maps to in `scale_to_factor` (1 when it maps to nothing). -/
def theirScaling (response : String) : ℚ :=
  match (scaleAndUnit response).toList with
  | [] => 1
  | c :: _ => ((scale_to_factor.lookup c).getD 1)

/-- Embedding of `_signal_parser`: parse a response into an SI value.
The numeric token is converted by Python `float` (`pyFloat`, `none` on
ValueError); the result is multiplied by the instrument scale derived
from the first character of the remaining scale-and-unit text and by
the caller-supplied scaling. -/
def parseSignal (our_scaling : ℚ) (response : String) : Option ℚ :=
  (pyFloat (numericToken response)).map
    (fun v => v * theirScaling response * our_scaling)

/-- Python substring containment, the test `pat in s`. -/
def pyContains (s pat : String) : Bool :=
  decide (pat.toList <:+: s.toList)

/-- Python `s.endswith(pat)`. -/
def pyEndsWith (s pat : String) : Bool :=
  pat.toList.isSuffixOf s.toList

/-- Helper for `pySplitColon`: split a character list at every colon,
accumulating the current field in reverse. -/
def pySplitColonAux : List Char → List Char → List (List Char)
  | [], acc => [acc.reverse]
  | c :: rest, acc =>
    if c = ':' then acc.reverse :: pySplitColonAux rest []
    else pySplitColonAux rest (c :: acc)

/-- Python `s.split(':')`: the colon-delimited fields of `s`, empty
fields preserved; the empty string yields one empty field. -/
def pySplitColon (s : String) : List String :=
  (pySplitColonAux s.toList []).map List.asString

/-- Helper for `pyRemoveAll`, structurally recursive on a fuel argument
that starts at the length of the string (each step consumes at least one
character, so the fuel never runs out on the reachable inputs). -/
def pyRemoveAllAux (pat : List Char) : ℕ → List Char → List Char
  | _, [] => []
  | 0, s => s
  | fuel + 1, c :: rest =>
    if pat ≠ [] ∧ pat.isPrefixOf (c :: rest) then
      pyRemoveAllAux pat fuel ((c :: rest).drop pat.length)
    else
      c :: pyRemoveAllAux pat fuel rest

/-- Python `s.replace(pat, '')` for a non-empty pattern: delete every
occurrence of `pat`, scanning left to right, matches non-overlapping.
(The driver only ever calls `replace` with the non-empty patterns `':'`,
`'READ:'` and `'STAT:...'`.) -/
def pyRemoveAll (s pat : String) : String :=
  (pyRemoveAllAux pat.toList s.toList.length s.toList).asString

/-- Python negative indexing `l[-2]`: the second-to-last element, an
IndexError (modelled as `none`) when the list has fewer than two
elements. -/
def pySecondToLast (l : List String) : Option String :=
  if h : 2 ≤ l.length then some (l.get ⟨l.length - 2, by omega⟩) else none

/-- Embedding of `MercuryiPS.ask` given the transport reply `resp` for
the command `cmd`.  The Boolean records whether an error was logged
(the reply contained INVALID); `none` models the IndexError raised by
`resp.split(':')[-2]` when the reply has fewer than two fields. -/
def mercuryAsk (cmd resp : String) : Option (Bool × String) :=
  if pyContains resp "INVALID" then
    some (true, resp)
  else if pyEndsWith resp "VALID" then
    (pySecondToLast (pySplitColon resp)).map (fun s => (false, s))
  else
    some (false, pyRemoveAll resp ("STAT:" ++ pyRemoveAll cmd "READ:"))

/-- What the specification text of the reply classification says, taken
at its word: identical to `mercuryAsk` except that in the READ branch
the pattern is stripped only when it occurs as a prefix of the reply,
the rest of the reply being returned unchanged. -/
def specStripFront (s pfx : String) : String :=
  if pfx.toList.isPrefixOf s.toList then (s.toList.drop pfx.toList.length).asString
  else s

/-- The reply classification as the specification describes it (READ
branch strips the echoed command only from the front). -/
def specAsk (cmd resp : String) : Option (Bool × String) :=
  if pyContains resp "INVALID" then
    some (true, resp)
  else if pyEndsWith resp "VALID" then
    (pySecondToLast (pySplitColon resp)).map (fun s => (false, s))
  else
    some (false, specStripFront resp ("STAT:" ++ pyRemoveAll cmd "READ:"))

/-- The dressed READ command of `MercurySlavePS._param_getter`:
READ:DEV:(uid):PSU:(cmd). -/
def paramGetterCmd (uid get_cmd : String) : String :=
  "READ:DEV:" ++ uid ++ ":PSU:" ++ get_cmd

/-- The dressed SET command of `MercurySlavePS._param_setter`:
SET:DEV:(uid):PSU:(cmd):(value). -/
def paramSetterCmd (uid set_cmd value : String) : String :=
  "SET:DEV:" ++ uid ++ ":PSU:" ++ set_cmd ++ ":" ++ value

/-- Embedding of `MercurySlavePS._param_setter` applied to the device
reply for the dressed command: the classified reply is computed and
discarded, the Python function returning None (`some ()`); `none`
models an exception escaping from `ask`. -/
def paramSetter (uid set_cmd value reply : String) : Option Unit :=
  (mercuryAsk (paramSetterCmd uid set_cmd value) reply).map (fun _ => ())

/-- The `val_mapping` of the `ramp_status` parameter: user-facing
status string to device token. -/
def rampValMapping (status : String) : Option String :=
  if status = "HOLD" then some "HOLD"
  else if status = "TO SET" then some "RTOS"
  else if status = "CLAMP" then some "CLMP"
  else if status = "TO ZERO" then some "RTOZ"
  else none

/-- Embedding of `MercurySlavePS._ramp_status_setter`.  `status_now` is
the current ramp status as returned by reading the `ramp_status`
parameter (the first action of the setter), `cmd` the device token of the
requested status.  The result is the ValueError message raised by the
guard, or the dressed ACTN SET command issued to the device. -/
def rampStatusSetter (uid status_now cmd : String) : Except String String :=
  if status_now = "CLAMP" ∧ cmd = "RTOS" then
    .error ("Error in ramping unit " ++ uid ++
      ": Can not ramp to target value; power supply is clamped. Unclamp first by setting ramp status to HOLD.")
  else
    .ok (paramSetterCmd uid "ACTN" cmd)

/-- Embedding of the UID validation in `MercurySlavePS.__init__`:
a UID containing a colon raises ValueError. -/
def slaveUidCheck (uid : String) : Except String Unit :=
  if pyContains uid ":" then
    .error "Invalid UID. Must be axis group name or device name, e.g. \"GRPX\" or \"PSU.M1\""
  else
    .ok ()

/-- The dynamic type of the `field_limits` argument of
`MercuryiPS.__init__`: Python None, a callable, or any non-callable
non-None value. -/
inductive FieldLimitsArg where
  | noLimits : FieldLimitsArg
  | callableFn : (ℚ → ℚ → ℚ → Bool) → FieldLimitsArg
  | notCallable : FieldLimitsArg

/-- Embedding of the `field_limits` validation in `MercuryiPS.__init__`
together with the later default: a non-callable non-None argument
raises ValueError; otherwise the stored predicate is the argument, or
the constant-true predicate when None was passed. -/
def fieldLimitsCheck : FieldLimitsArg → Except String (ℚ → ℚ → ℚ → Bool)
  | .noLimits => .ok (fun _ _ _ => true)
  | .callableFn f => .ok f
  | .notCallable =>
    .error "Got wrong type of field_limits. Must be a function from (x, y, z) -> Bool."

/-- Modelled from the spec: the external FieldVector collaborator
(`qcodes.math.field_vector`, not part of this file) holds three real
Cartesian components x, y, z in tesla; its spherical views are derived
from them. -/
structure FieldVector where
  x : ℚ
  y : ℚ
  z : ℚ
deriving DecidableEq

/-- Embedding of `MercuryiPS._set_target`.  `setComp` stands for the
external FieldVector `set_component` operation (clone `current`, then
apply the single coordinate change, which for a spherical coordinate
recomputes all Cartesian components); it is a parameter because the
collaborator is not part of this file.  The result is the ValueError
message, or the vector committed as the new target. -/
def setTarget (setComp : String → ℚ → FieldVector → FieldVector)
    (field_limits : ℚ → ℚ → ℚ → Bool) (current : FieldVector)
    (coordinate : String) (target : ℚ) : Except String FieldVector :=
  let valid_vec := setComp coordinate target current
  if field_limits valid_vec.x valid_vec.y valid_vec.z = false then
    .error ("Cannot set " ++ coordinate ++ " target to " ++ toString target ++
      ", that would violate the field_limits. ")
  else
    .ok (setComp coordinate target current)

/-- The stored target vector after a `_set_target` call: unchanged when
the call raised, the committed vector when it succeeded. -/
def setTargetState (setComp : String → ℚ → FieldVector → FieldVector)
    (field_limits : ℚ → ℚ → ℚ → Bool) (current : FieldVector)
    (coordinate : String) (target : ℚ) : FieldVector :=
  match setTarget setComp field_limits current coordinate target with
  | .error _ => current
  | .ok v => v

/-- Modelled from the spec: the Cartesian case of the external
FieldVector `set_component` operation, used to instantiate the
`set_target` theorem on the concrete example of the specification. -/
def cartesianSetComp (coordinate : String) (v : ℚ) (fv : FieldVector) : FieldVector :=
  if coordinate = "x" then ⟨v, fv.y, fv.z⟩
  else if coordinate = "y" then ⟨fv.x, v, fv.z⟩
  else if coordinate = "z" then ⟨fv.x, fv.y, v⟩
  else fv

/-- Modelled from the spec: the example admissible-region predicate
admit(x, y, z) = (x² + y² + z² ≤ 1). -/
def unitBallLimits (x y z : ℚ) : Bool :=
  decide (x ^ 2 + y ^ 2 + z ^ 2 ≤ 1)

/-- The `set_parser` of the `field_ramp_rate` parameter: T/s to the
device's per-minute convention. -/
def fieldRampRateSetParser (x : ℚ) : ℚ := x * 60

/-- The `get_parser` of the `field_ramp_rate` parameter: the signal
value parser with the extra caller scale 1/60. -/
def fieldRampRateGetReply (resp : String) : Option ℚ :=
  parseSignal (1 / 60) resp

/-- The dressed SET command produced by a `field_ramp_rate` write:
the framework applies `set_parser` and hands the rendered value to
`_param_setter` with command SIG:RFST; `render` stands for the
framework's number-to-string conversion. -/
def fieldRampRateSetCmd (render : ℚ → String) (uid : String) (v : ℚ) : String :=
  paramSetterCmd uid "SIG:RFST" (render (fieldRampRateSetParser v))

/-- The numeric token as the specification describes it: remove the
colons, then collect, scanning left to right, the characters that are
decimal digits, the full stop or the minus sign. -/
def specToken (response : String) : List Char :=
  (response.toList.filter (fun c => c ≠ ':')).filter
    (fun c => c.isDigit || c == '.' || c == '-')

/-- The scale-and-unit suffix as the specification describes it:
everything of the colon-stripped reply after the first
`(specToken response).length` characters. -/
def specSuffix (response : String) : List Char :=
  (response.toList.filter (fun c => c ≠ ':')).drop (specToken response).length

/-- The instrument scale as the specification describes it: 1e-9, 1e-6,
1e-3, 1e3 or 1e6 when the first suffix character is n, u, m, k or M
respectively, and 1 when the suffix is empty or starts with any other
character. -/
def specFactor : List Char → ℚ
  | [] => 1
  | c :: _ =>
    if c = 'n' then 1 / 1000000000
    else if c = 'u' then 1 / 1000000
    else if c = 'm' then 1 / 1000
    else if c = 'k' then 1000
    else if c = 'M' then 1000000
    else 1

/-- Unfolding helper: the character data of a packed character list. -/
theorem asString_data (l : List Char) : (List.asString l).data = l := rfl

example : pyFloat "12.345" = some (12345 / 1000) := by
  simp +decide [pyFloat]
  norm_num
example : pyFloat "-3" = some (-3) := by
  simp +decide [pyFloat]
example : pyFloat "" = none := by
  simp +decide [pyFloat]
example : pyFloat "1-2" = none := by
  simp +decide [pyFloat]
example : pyFloat "1.2.3" = none := by
  simp +decide [pyFloat]
example : parseSignal 1 "12.345mA" = some (12345 / 1000000) := by
  simp +decide [parseSignal, theirScaling, pyFloat, numericToken, scaleAndUnit,
    preparseResponse, numchars, scale_to_factor, List.lookup, asString_data]
  norm_num
example : parseSignal (1 / 60) "-3k" = some (-50) := by
  simp +decide [parseSignal, theirScaling, pyFloat, numericToken, scaleAndUnit,
    preparseResponse, numchars, scale_to_factor, List.lookup, asString_data]
  norm_num
example : parseSignal 1 "7" = some 7 := by
  simp +decide [parseSignal, theirScaling, pyFloat, numericToken, scaleAndUnit,
    preparseResponse, numchars, scale_to_factor, List.lookup, asString_data]

example :
    mercuryAsk "SET:DEV:GRPX:PSU:SIG:FSET:1.5"
      "STAT:SET:DEV:GRPX:PSU:SIG:FSET:1.5:VALID" = some (false, "1.5") := by
  decide
example : mercuryAsk "READ:DEV:GRPX:PSU:SIG:FLD"
    "STAT:DEV:GRPX:PSU:SIG:FLD:1.2T" = some (false, ":1.2T") := by decide
example : mercuryAsk "x" "VALID" = none := by decide
example : mercuryAsk "READ:A" "STAT:ASTAT:A" = some (false, "") := by decide
example : specAsk "READ:A" "STAT:ASTAT:A" = some (false, "STAT:A") := by decide

/-- Character data of an appended string. -/
theorem toList_append (s t : String) : (s ++ t).toList = s.toList ++ t.toList := by
  cases s; cases t; rfl

/-- The packed character list round trip. -/
theorem asString_toList (l : List Char) : (List.asString l).toList = l := rfl

/-- A character whose code point equals that of another character is
that character. -/
theorem char_eq_of_toNat {c : Char} (d : Char) (h : c.toNat = d.toNat) : c = d := by
  apply Char.ext
  apply UInt32.ext
  simpa [Char.toNat] using h

/-- Every decimal digit character is in `numchars`. -/
theorem isDigit_mem_numchars {c : Char} (h : c.isDigit = true) : c ∈ numchars := by
  have hv : 48 ≤ c.toNat ∧ c.toNat ≤ 57 := by
    simp [Char.isDigit] at h
    exact ⟨h.1, h.2⟩
  have henum : c.toNat = 48 ∨ c.toNat = 49 ∨ c.toNat = 50 ∨ c.toNat = 51 ∨
      c.toNat = 52 ∨ c.toNat = 53 ∨ c.toNat = 54 ∨ c.toNat = 55 ∨
      c.toNat = 56 ∨ c.toNat = 57 := by omega
  rcases henum with h | h | h | h | h | h | h | h | h | h
  · have hc : c = '0' := char_eq_of_toNat '0' (by rw [h]; decide)
    rw [hc]; decide
  · have hc : c = '1' := char_eq_of_toNat '1' (by rw [h]; decide)
    rw [hc]; decide
  · have hc : c = '2' := char_eq_of_toNat '2' (by rw [h]; decide)
    rw [hc]; decide
  · have hc : c = '3' := char_eq_of_toNat '3' (by rw [h]; decide)
    rw [hc]; decide
  · have hc : c = '4' := char_eq_of_toNat '4' (by rw [h]; decide)
    rw [hc]; decide
  · have hc : c = '5' := char_eq_of_toNat '5' (by rw [h]; decide)
    rw [hc]; decide
  · have hc : c = '6' := char_eq_of_toNat '6' (by rw [h]; decide)
    rw [hc]; decide
  · have hc : c = '7' := char_eq_of_toNat '7' (by rw [h]; decide)
    rw [hc]; decide
  · have hc : c = '8' := char_eq_of_toNat '8' (by rw [h]; decide)
    rw [hc]; decide
  · have hc : c = '9' := char_eq_of_toNat '9' (by rw [h]; decide)
    rw [hc]; decide

/-- Membership in `numchars` coincides with the class of decimal
digits, the full stop and the minus sign. -/
theorem mem_numchars_eq (c : Char) :
    decide (c ∈ numchars) = (c.isDigit || c == '.' || c == '-') := by
  by_cases h : c ∈ numchars
  · have h2 : (c.isDigit || c == '.' || c == '-') = true := by
      simp only [numchars] at h
      fin_cases h <;> decide
    simp [h, h2]
  · have hd : c.isDigit = false := by
      cases hd : c.isDigit
      · rfl
      · exact absurd (isDigit_mem_numchars hd) h
    have hp : (c == '.') = false := by
      cases hp : (c == '.')
      · rfl
      · rw [beq_iff_eq] at hp
        subst hp
        exact absurd (by decide) h
    have hm : (c == '-') = false := by
      cases hm : (c == '-')
      · rfl
      · rw [beq_iff_eq] at hm
        subst hm
        exact absurd (by decide) h
    simp [h, hd, hp, hm]

/-- The numeric token collected by the source coincides with the one
described by the specification. -/
theorem numericToken_eq_specToken (response : String) :
    numericToken response = (specToken response).asString := by
  unfold numericToken specToken preparseResponse
  rw [asString_toList]
  congr 1
  apply List.filter_congr
  intro c _
  exact mem_numchars_eq c

/-- The scale-and-unit suffix of the source coincides with the one
described by the specification. -/
theorem scaleAndUnit_eq_specSuffix (response : String) :
    (scaleAndUnit response).toList = specSuffix response := by
  unfold scaleAndUnit specSuffix preparseResponse
  rw [asString_toList, asString_toList, numericToken_eq_specToken,
    List.length_asString]

/-- The instrument scale computed by the source coincides with the
factor described by the specification. -/
theorem theirScaling_eq_specFactor (response : String) :
    theirScaling response = specFactor (specSuffix response) := by
  unfold theirScaling
  rw [scaleAndUnit_eq_specSuffix]
  cases specSuffix response with
  | nil => rfl
  | cons c rest =>
    show (scale_to_factor.lookup c).getD 1 = specFactor (c :: rest)
    unfold specFactor scale_to_factor
    simp only [List.lookup]
    cases hb1 : c == 'n' with
    | true => simp_all
    | false =>
      have h1 : ¬ c = 'n' := by simpa using hb1
      cases hb2 : c == 'u' with
      | true => simp_all
      | false =>
        have h2 : ¬ c = 'u' := by simpa using hb2
        cases hb3 : c == 'm' with
        | true => simp_all
        | false =>
          have h3 : ¬ c = 'm' := by simpa using hb3
          cases hb4 : c == 'k' with
          | true => simp_all
          | false =>
            have h4 : ¬ c = 'k' := by simpa using hb4
            cases hb5 : c == 'M' with
            | true => simp_all
            | false =>
              have h5 : ¬ c = 'M' := by simpa using hb5
              simp [h1, h2, h3, h4, h5]

/-- C4: for every reply string, the signal parser removes the colons,
collects the characters that are decimal digits, the full stop or the
minus sign into the numeric token, treats the rest (everything after
the first token-length characters) as the scale-and-unit suffix, and
returns float(token) multiplied by the SI factor of the first suffix
character (1e-9, 1e-6, 1e-3, 1e3, 1e6 for n, u, m, k, M; 1 for an
empty suffix or any other character) and by the caller-supplied
scale. -/
theorem parseSignal_spec (our_scaling : ℚ) (response : String) :
    parseSignal our_scaling response =
      (pyFloat (specToken response).asString).map
        (fun v => v * specFactor (specSuffix response) * our_scaling) := by
  unfold parseSignal
  rw [numericToken_eq_specToken, theirScaling_eq_specFactor]

/-- C5: the signal parser returns 0.012345 for reply 12.345mA at caller
scale 1, -50 for reply -3k at caller scale 1/60, and 7 for the
suffix-free reply 7 at caller scale 1. -/
theorem parseSignal_examples :
    parseSignal 1 "12.345mA" = some (12345 / 1000000) ∧
    parseSignal (1 / 60) "-3k" = some (-50) ∧
    parseSignal 1 "7" = some 7 := by
  refine ⟨?_, ?_, ?_⟩ <;>
    simp +decide [parseSignal, theirScaling, pyFloat, numericToken, scaleAndUnit,
      preparseResponse, numchars, scale_to_factor, List.lookup, asString_data] <;>
    norm_num

/-- C6: when the collected numeric token is empty or is not a valid
real number (Python float raises ValueError), the signal parser fails
and returns no value. -/
theorem parseSignal_fails (our_scaling : ℚ) (response : String)
    (h : pyFloat (numericToken response) = none) :
    parseSignal our_scaling response = none := by
  simp [parseSignal, h]

/-- Witness for C6 at the reply FAULT, whose numeric token is empty. -/
theorem parseSignal_fails_witness :
    pyFloat (numericToken "FAULT") = none ∧ parseSignal 1 "FAULT" = none :=
  ⟨by decide, parseSignal_fails 1 "FAULT" (by decide)⟩

/-- C8: a field ramp rate write sends the value multiplied by 60
(T/s to the per-minute device convention) in the SIG:RFST SET command,
and a field ramp rate read parses the reply with the extra caller
scale 1/60, so the reported value is the parsed device figure divided
by 60. -/
theorem fieldRampRate_conversion (render : ℚ → String) (uid : String) (v : ℚ)
    (r : String) (q : ℚ) (h : parseSignal 1 r = some q) :
    fieldRampRateSetCmd render uid v = paramSetterCmd uid "SIG:RFST" (render (v * 60)) ∧
    fieldRampRateGetReply r = some (q / 60) := by
  constructor
  · rfl
  · simp only [fieldRampRateGetReply, parseSignal] at h ⊢
    cases hp : pyFloat (numericToken r) with
    | none => rw [hp] at h; simp at h
    | some d =>
      rw [hp] at h
      simp only [Option.map_some'] at h ⊢
      have hq : d * theirScaling r * 1 = q := by injection h
      rw [Option.some_inj]
      rw [← hq]
      ring

/-- Witness for C8: writing 0.5 T/s sends 30 and a device reply of 30
(per minute) is reported as 0.5 T/s. -/
theorem fieldRampRate_conversion_witness :
    fieldRampRateSetCmd (fun _ => "30.0") "GRPX" (1 / 2) =
      paramSetterCmd "GRPX" "SIG:RFST" ((fun _ => "30.0") ((1 / 2 : ℚ) * 60)) ∧
    fieldRampRateGetReply "30" = some ((30 : ℚ) / 60) := by
  exact fieldRampRate_conversion (fun _ => "30.0") "GRPX" (1 / 2) "30" 30
    (by simp +decide [parseSignal, theirScaling, pyFloat, numericToken, scaleAndUnit,
      preparseResponse, numchars, scale_to_factor, List.lookup, asString_data])

/-- Counterexample for C1: in the READ branch, `ask` removes every
occurrence of the STAT-prefixed echoed command from the reply (Python
str.replace), not only a front prefix as the claim states; for command
READ:A and reply XSTAT:A the code yields X while the claimed
front-stripping yields XSTAT:A unchanged. -/
theorem mercuryAsk_not_spec :
    mercuryAsk "READ:A" "XSTAT:A" = some (false, "X") ∧
    specAsk "READ:A" "XSTAT:A" = some (false, "XSTAT:A") ∧
    mercuryAsk "READ:A" "XSTAT:A" ≠ specAsk "READ:A" "XSTAT:A" := by
  refine ⟨by decide, by decide, by decide⟩

/-- C1 (amended): `ask` classifies every reply in exactly three
mutually exclusive ways.  A reply containing INVALID is logged at
error severity and returned unchanged.  Otherwise a reply ending in
VALID yields the second-to-last colon-delimited field when the reply
has at least two fields, and raises an IndexError (modelled `none`)
when it has fewer.  Otherwise (a READ reply) every occurrence of
STAT: followed by the command with every occurrence of READ: removed
is deleted from the reply (not merely a front prefix), the remainder
being the payload. -/
theorem mercuryAsk_classification (cmd resp : String) :
    (pyContains resp "INVALID" = true → mercuryAsk cmd resp = some (true, resp)) ∧
    (pyContains resp "INVALID" = false → pyEndsWith resp "VALID" = true →
      ∀ h2 : 2 ≤ (pySplitColon resp).length,
        mercuryAsk cmd resp =
          some (false, (pySplitColon resp).get
            ⟨(pySplitColon resp).length - 2, by omega⟩)) ∧
    (pyContains resp "INVALID" = false → pyEndsWith resp "VALID" = true →
      (pySplitColon resp).length < 2 → mercuryAsk cmd resp = none) ∧
    (pyContains resp "INVALID" = false → pyEndsWith resp "VALID" = false →
      mercuryAsk cmd resp =
        some (false, pyRemoveAll resp ("STAT:" ++ pyRemoveAll cmd "READ:"))) := by
  refine ⟨?_, ?_, ?_, ?_⟩
  · intro hi
    simp [mercuryAsk, hi]
  · intro hi he h2
    simp [mercuryAsk, hi, he, pySecondToLast, h2]
  · intro hi he h2
    have hn : ¬ 2 ≤ (pySplitColon resp).length := by omega
    simp [mercuryAsk, hi, he, pySecondToLast, hn]
  · intro hi he
    simp [mercuryAsk, hi, he]

/-- Witness for C1 (amended) on the SET acknowledgment example of the
specification: the second-to-last field 1.5 is returned. -/
theorem mercuryAsk_classification_witness :
    mercuryAsk "SET:DEV:GRPX:PSU:SIG:FSET:1.5"
      "STAT:SET:DEV:GRPX:PSU:SIG:FSET:1.5:VALID" = some (false, "1.5") := by
  have h := (mercuryAsk_classification "SET:DEV:GRPX:PSU:SIG:FSET:1.5"
    "STAT:SET:DEV:GRPX:PSU:SIG:FSET:1.5:VALID").2.1 (by decide) (by decide) (by decide)
  exact h.trans (by decide)

/-- C9: a reply ending in INVALID also contains INVALID, so the
rejected-command branch fires and the reply is returned verbatim; the
SET-acknowledgment branch is never reached because the INVALID test
comes first. -/
theorem mercuryAsk_invalid_first (cmd resp : String)
    (h : pyEndsWith resp "INVALID" = true) :
    mercuryAsk cmd resp = some (true, resp) := by
  have hs : "INVALID".toList <:+ resp.toList := by
    simpa [pyEndsWith] using h
  have hi : pyContains resp "INVALID" = true := by
    simp only [pyContains, decide_eq_true_eq]
    obtain ⟨pre, hpre⟩ := hs
    exact ⟨pre, [], by simpa using hpre⟩
  simp [mercuryAsk, hi]

/-- Witness for C9 on a reply that ends in INVALID (and hence also
ends in VALID). -/
theorem mercuryAsk_invalid_first_witness :
    mercuryAsk "SET:DEV:GRPX:PSU:SIG:FSET:1.5"
      "STAT:SET:DEV:GRPX:PSU:SIG:FSET:1.5:INVALID" =
      some (true, "STAT:SET:DEV:GRPX:PSU:SIG:FSET:1.5:INVALID") :=
  mercuryAsk_invalid_first "SET:DEV:GRPX:PSU:SIG:FSET:1.5"
    "STAT:SET:DEV:GRPX:PSU:SIG:FSET:1.5:INVALID" (by decide)

/-- Counterexample for C10: a parameter write does not always return
None; when the device reply is VALID with no colon, the reply
classification inside `ask` raises an IndexError that escapes the
write. -/
theorem paramSetter_crash :
    paramSetter "GRPX" "SIG:FSET" "1.5" "VALID" = none := by decide

/-- C10 (amended): a parameter write sends the dressed SET command,
discards the classified reply and returns None whenever the reply
classification itself succeeds; the payload of the acknowledgment is
never inspected and the requested value is never compared to it.  The
only failures are IndexError escapes from the classification, for a
reply ending in VALID, not containing INVALID, with fewer than two
colon-delimited fields. -/
theorem paramSetter_discards_reply (uid set_cmd value reply : String)
    (h : (mercuryAsk (paramSetterCmd uid set_cmd value) reply).isSome = true) :
    paramSetter uid set_cmd value reply = some () ∧
    paramSetterCmd uid set_cmd value =
      "SET:DEV:" ++ uid ++ ":PSU:" ++ set_cmd ++ ":" ++ value := by
  constructor
  · unfold paramSetter
    cases hm : mercuryAsk (paramSetterCmd uid set_cmd value) reply with
    | none => rw [hm] at h; simp at h
    | some p => simp
  · rfl

/-- Witness for C10 (amended) on a successful SET acknowledgment. -/
theorem paramSetter_discards_reply_witness :
    paramSetter "GRPX" "SIG:FSET" "1.5"
      "STAT:SET:DEV:GRPX:PSU:SIG:FSET:1.5:VALID" = some () ∧
    paramSetterCmd "GRPX" "SIG:FSET" "1.5" =
      "SET:DEV:" ++ "GRPX" ++ ":PSU:" ++ "SIG:FSET" ++ ":" ++ "1.5" :=
  paramSetter_discards_reply "GRPX" "SIG:FSET" "1.5"
    "STAT:SET:DEV:GRPX:PSU:SIG:FSET:1.5:VALID" (by decide)

/-- C2: a ramp-status write first reads the current status and then
guards: when the current status is CLAMP and the requested status is
the one that maps to device token RTOS (exactly TO SET), a ValueError
naming the axis is raised and no SET command is issued; in every other
combination the dressed ACTN SET command with the requested token is
issued. -/
theorem rampStatus_guard (uid status_now requested tok : String)
    (hmap : rampValMapping requested = some tok) :
    (tok = "RTOS" ↔ requested = "TO SET") ∧
    (status_now = "CLAMP" ∧ tok = "RTOS" →
      ∃ msg, rampStatusSetter uid status_now tok = .error msg ∧
        uid.toList <:+: msg.toList) ∧
    (¬ (status_now = "CLAMP" ∧ tok = "RTOS") →
      rampStatusSetter uid status_now tok = .ok (paramSetterCmd uid "ACTN" tok)) := by
  refine ⟨?_, ?_, ?_⟩
  · unfold rampValMapping at hmap
    split_ifs at hmap with h1 h2 h3 h4 <;>
      injection hmap with hmap <;> subst hmap <;> subst_eqs <;> simp_all
  · rintro ⟨h1, h2⟩
    subst h1
    subst h2
    have he : rampStatusSetter uid "CLAMP" "RTOS" =
        .error ("Error in ramping unit " ++ uid ++
          ": Can not ramp to target value; power supply is clamped. Unclamp first by setting ramp status to HOLD.") := by
      simp [rampStatusSetter]
    refine ⟨_, he, ?_⟩
    exact ⟨"Error in ramping unit ".toList,
      (": Can not ramp to target value; power supply is clamped. Unclamp first by setting ramp status to HOLD.").toList,
      by simp [toList_append]⟩
  · intro h
    simp [rampStatusSetter, h]

/-- Witness for C2: a clamped supply rejects the TO SET request with
an error naming the axis, and a holding supply gets the dressed SET. -/
theorem rampStatus_guard_witness :
    (∃ msg, rampStatusSetter "GRPX" "CLAMP" "RTOS" = .error msg ∧
      "GRPX".toList <:+: msg.toList) ∧
    rampStatusSetter "GRPX" "HOLD" "RTOS" = .ok "SET:DEV:GRPX:PSU:ACTN:RTOS" := by
  constructor
  · exact (rampStatus_guard "GRPX" "CLAMP" "TO SET" "RTOS" (by decide)).2.1 ⟨rfl, rfl⟩
  · have h := (rampStatus_guard "GRPX" "HOLD" "TO SET" "RTOS" (by decide)).2.2 (by decide)
    exact h.trans (congrArg Except.ok (by decide))

/-- C7: a sub-supply UID containing a colon is rejected at
construction while a colon-free UID is accepted, and a field_limits
argument that is neither None nor callable is rejected at construction
while None and a callable are accepted. -/
theorem construction_validation (uid : String) (f : ℚ → ℚ → ℚ → Bool) :
    (pyContains uid ":" = true → ∃ msg, slaveUidCheck uid = .error msg) ∧
    (pyContains uid ":" = false → slaveUidCheck uid = .ok ()) ∧
    (∃ msg, fieldLimitsCheck .notCallable = .error msg) ∧
    (fieldLimitsCheck (.callableFn f) = .ok f) ∧
    (fieldLimitsCheck .noLimits = .ok fun _ _ _ => true) := by
  refine ⟨?_, ?_, ⟨_, rfl⟩, rfl, rfl⟩
  · intro h
    have he : slaveUidCheck uid =
        .error "Invalid UID. Must be axis group name or device name, e.g. \"GRPX\" or \"PSU.M1\"" := by
      simp [slaveUidCheck, h]
    exact ⟨_, he⟩
  · intro h
    simp [slaveUidCheck, h]

/-- Witness for C7 on the UIDs of the specification example: PSU:M1 is
rejected, PSU.M1 is accepted. -/
theorem construction_validation_witness :
    (∃ msg, slaveUidCheck "PSU:M1" = .error msg) ∧
    slaveUidCheck "PSU.M1" = .ok () := by
  constructor
  · exact (construction_validation "PSU:M1" (fun _ _ _ => true)).1 (by decide)
  · exact (construction_validation "PSU.M1" (fun _ _ _ => true)).2.1 (by decide)

/-- C3: a target write builds the candidate vector by applying the
single coordinate change to a copy of the current target, evaluates
the field-limit predicate on the Cartesian projection of the
candidate; on a false verdict a ValueError naming the coordinate and
the value is raised and the stored target vector is unchanged, on a
true verdict the candidate becomes the stored target vector. -/
theorem setTarget_validate_then_commit
    (setComp : String → ℚ → FieldVector → FieldVector)
    (field_limits : ℚ → ℚ → ℚ → Bool) (current : FieldVector)
    (coordinate : String) (target : ℚ) :
    (field_limits (setComp coordinate target current).x
        (setComp coordinate target current).y
        (setComp coordinate target current).z = false →
      (∃ msg, setTarget setComp field_limits current coordinate target = .error msg ∧
        coordinate.toList <:+: msg.toList ∧ (toString target).toList <:+: msg.toList) ∧
      setTargetState setComp field_limits current coordinate target = current) ∧
    (field_limits (setComp coordinate target current).x
        (setComp coordinate target current).y
        (setComp coordinate target current).z = true →
      setTarget setComp field_limits current coordinate target =
        .ok (setComp coordinate target current) ∧
      setTargetState setComp field_limits current coordinate target =
        setComp coordinate target current) := by
  constructor
  · intro h
    have he : setTarget setComp field_limits current coordinate target =
        .error ("Cannot set " ++ coordinate ++ " target to " ++ toString target ++
          ", that would violate the field_limits. ") := by
      simp [setTarget, h]
    refine ⟨⟨_, he, ?_, ?_⟩, ?_⟩
    · exact ⟨"Cannot set ".toList,
        (" target to ").toList ++ (toString target).toList ++
          (", that would violate the field_limits. ").toList,
        by simp [toList_append]⟩
    · exact ⟨"Cannot set ".toList ++ coordinate.toList ++ (" target to ").toList,
        (", that would violate the field_limits. ").toList,
        by simp [toList_append]⟩
    · simp [setTargetState, he]
  · intro h
    have he : setTarget setComp field_limits current coordinate target =
        .ok (setComp coordinate target current) := by
      simp [setTarget, h]
    exact ⟨he, by simp [setTargetState, he]⟩

/-- Witness for C3 on the specification example: with the unit-ball
limit predicate, setting the x target to 2 from the zero vector is
rejected with an error naming x and 2, and the stored target stays at
the zero vector. -/
theorem setTarget_witness :
    unitBallLimits (cartesianSetComp "x" 2 ⟨0, 0, 0⟩).x
      (cartesianSetComp "x" 2 ⟨0, 0, 0⟩).y (cartesianSetComp "x" 2 ⟨0, 0, 0⟩).z = false ∧
    (∃ msg, setTarget cartesianSetComp unitBallLimits ⟨0, 0, 0⟩ "x" 2 = .error msg ∧
      "x".toList <:+: msg.toList ∧ (toString (2 : ℚ)).toList <:+: msg.toList) ∧
    setTargetState cartesianSetComp unitBallLimits ⟨0, 0, 0⟩ "x" 2 = ⟨0, 0, 0⟩ := by
  have hf : unitBallLimits (cartesianSetComp "x" 2 ⟨0, 0, 0⟩).x
      (cartesianSetComp "x" 2 ⟨0, 0, 0⟩).y
      (cartesianSetComp "x" 2 ⟨0, 0, 0⟩).z = false := by
    simp [cartesianSetComp, unitBallLimits]
  have h := (setTarget_validate_then_commit cartesianSetComp unitBallLimits
    ⟨0, 0, 0⟩ "x" 2).1 hf
  exact ⟨hf, h.1, h.2⟩

end MercuryIPS
